import Mathlib

/-!
# Verification of the SAP plant-address chatbot backend

Shallow embedding of the Python backend under `Backend/` (FastAPI app):
the NLP extractors (`services/nlp_service.py`, `services/nlp_postal_service.py`),
the SAP remote-service clients (`services/sap_service.py`,
`services/sap_postal_service.py`), the v1 endpoint (`main.py`), and the v3
dynamic router (`dynamic_router.py`, `core/intent_registry.py`,
`core/handlers/*.py`, `schemas.py`).

Modelling conventions:
* Values flowing through entity maps are modelled by `PyLeaf` (`None`,
  strings, string lists — the shapes the backend's filters inspect);
  JSON values returned by `json.loads` are modelled by `PyVal`, nested to
  the depth the backend reads (an object of leaves under a top-level key).
  Python truthiness is `pyTruthy` / `leafTruthy`.
* Dicts are association lists with distinct keys (the JSON schemas used by
  the extractors produce unique keys), looked up by `alookup`.
* Outbound LLM calls are abstracted: each extractor receives the raw model
  response string as an argument; the general-chat reply is a parameter.
* Outbound SAP HTTP calls are recorded in a trace (`RemoteCall`).  The
  telephone server model is well-behaved (GET-by-key answers 200 when the
  PLANT key exists and 404 otherwise, writes succeed), which is the regime
  the check-first upsert claims describe; the postal server model returns
  arbitrary configured statuses, since the postal claims are about the
  status-code fallback logic.
* Python exceptions become `Except` values tagged by exception class
  (`AppError`), and the FastAPI handlers' `except` chains become the
  explicit mapping `httpBoundary`.
-/

/-- A Python value as it appears inside an entity map: `None`, a string,
or a list (of strings — the backend only ever tests lists for emptiness). -/
inductive PyLeaf where
  | lNone : PyLeaf
  | lStr : String → PyLeaf
  | lList : List String → PyLeaf
deriving DecidableEq, Repr

/-- An entity map: the `entities` dict of a request / extractor result. -/
abbrev EntityMap := List (String × PyLeaf)

/-- A JSON value as returned by `json.loads` at the top level of a model
response: a leaf or a (string-keyed) object of leaves.  The backend never
reads deeper than one object level inside the parsed response. -/
inductive PyVal where
  | vLeaf : PyLeaf → PyVal
  | vDict : EntityMap → PyVal
deriving DecidableEq, Repr

/-- Python truthiness of a leaf: `None`, `""` and `[]` are falsy. -/
def leafTruthy : PyLeaf → Bool
  | .lNone => false
  | .lStr s => !(s == "")
  | .lList xs => !xs.isEmpty

/-- Python truthiness of a parsed JSON value (`\x7b\x7d` is falsy). -/
def pyTruthy : PyVal → Bool
  | .vLeaf l => leafTruthy l
  | .vDict kvs => !kvs.isEmpty

/-- Membership of a value in the Python tuple `(None, "", [])`, the filter
used by both upsert services to strip null/empty fields. -/
def isNullEmptyVal : PyLeaf → Bool
  | .lNone => true
  | .lStr s => s == ""
  | .lList xs => xs.isEmpty

/-- `dict.get`: first match in an association list (keys are distinct). -/
def alookup {α : Type} : List (String × α) → String → Option α
  | [], _ => none
  | (k0, v) :: rest, k => if k0 == k then some v else alookup rest k

/-- Truthiness of `entities.get(f)` (a missing key reads as falsy `None`). -/
def pyGetTruthy (kvs : EntityMap) (k : String) : Bool :=
  match alookup kvs k with
  | some v => leafTruthy v
  | none => false

/-- `\x7bk: v for k, v in entities.items() if v not in (None, "", [])\x7d` —
the null/empty-stripping dict comprehension shared by both upsert services
(`sap_service.py` line 109, `sap_postal_service.py` line 91). -/
def cleanEntities (kvs : EntityMap) : EntityMap :=
  kvs.filter (fun kv => !(isNullEmptyVal kv.2))

/-- Python `str(...)` of a leaf as used in f-string interpolation of the
PLANT value (in practice PLANT is always a string). -/
def leafStr : PyLeaf → String
  | .lNone => "None"
  | .lStr s => s
  | .lList _ => "[...]"

/-- `", ".join(missing)`. -/
def joinCommaSpace : List String → String
  | [] => ""
  | [s] => s
  | s :: rest => s ++ ", " ++ joinCommaSpace rest

/-! ## Python string primitives

The extractors' fence handling uses `str.strip`, `str.split`, substring
tests and `max(..., key=len)`.  These are modelled structurally on the
character list of a `String` so every definition evaluates by reduction. -/

/-- The ASCII whitespace stripped by Python `str.strip()`. -/
def isPySpace (c : Char) : Bool :=
  c == ' ' || c == '\t' || c == '\n' || c == '\r' || c == '\x0b' || c == '\x0c'

/-- Drop leading whitespace characters. -/
def dropLeadingSpace : List Char → List Char
  | [] => []
  | c :: cs => if isPySpace c then dropLeadingSpace cs else c :: cs

/-- Python `s.strip()` on the character list. -/
def pyStripList (cs : List Char) : List Char :=
  (dropLeadingSpace (dropLeadingSpace cs).reverse).reverse

/-- Python `s.strip()`. -/
def pyStrip (s : String) : String := ⟨pyStripList s.data⟩

/-- Boolean list-prefix test. -/
def isPrefixList : List Char → List Char → Bool
  | [], _ => true
  | _ :: _, [] => false
  | a :: as, b :: bs => a == b && isPrefixList as bs

/-- Python substring test `needle in s` on character lists. -/
def containsList (needle : List Char) : List Char → Bool
  | [] => isPrefixList needle []
  | c :: cs => isPrefixList needle (c :: cs) || containsList needle cs

/-- Python substring test `pat in s`. -/
def containsStr (s pat : String) : Bool := containsList pat.data s.data

/-- Python `s.split(sep)` worker (fuel-driven; `s.length` fuel suffices
because each step consumes at least one character). -/
def splitOnFuel (sep : List Char) : Nat → List Char → List Char → List (List Char)
  | _, [], acc => [acc.reverse]
  | 0, _ :: _, acc => [acc.reverse]
  | fuel + 1, c :: cs, acc =>
    if isPrefixList sep (c :: cs) then
      acc.reverse :: splitOnFuel sep fuel (List.drop (sep.length - 1) cs) []
    else
      splitOnFuel sep fuel cs (c :: acc)

/-- Python `s.split(sep)` (for a non-empty separator) on character lists. -/
def pySplitList (sep cs : List Char) : List (List Char) :=
  splitOnFuel sep cs.length cs []

/-- Python `s.split(sep)`. -/
def pySplitOn (s sep : String) : List String :=
  (pySplitList sep.data s.data).map (fun l => ⟨l⟩)

/-- Python `max(p :: ps, key=len)`: the first part of maximal length. -/
def maxByLen (p : String) (ps : List String) : String :=
  ps.foldl (fun a q => if q.length > a.length then q else a) p

/-! ## Extractor response parsing (`nlp_service.py` / `nlp_postal_service.py`) -/

/-- The Markdown triple-backtick fence marker. -/
def fenceMarker : String := "```"

/-- The fence-stripping step of both extractors (`nlp_service.py` lines
105-109, `nlp_postal_service.py` lines 145-149): if the (already stripped)
response contains a fence marker, split on it, keep the fragments that
contain both braces, and take the longest one, stripped; otherwise the
response is used as-is. -/
def pickJsonPayload (response : String) : String :=
  if containsStr response fenceMarker then
    match (pySplitOn response fenceMarker).filter
        (fun p => p.data.contains '{' && p.data.contains '}') with
    | [] => response
    | p :: ps => pyStrip (maxByLen p ps)
  else response

/-- Result of an extractor: the classified intent and the raw entities
value from the model response. -/
structure ExtractOut where
  intent : String
  entities : PyVal
deriving DecidableEq, Repr

/-- An abstract `json.loads` restricted to top-level JSON objects: `none`
models `json.JSONDecodeError` (and the claims below never exercise
responses that parse to a non-object). -/
abbrev JsonLoads := String → Option (List (String × PyVal))

/-- The telephone domain's known intent set (`nlp_service.py` line 118). -/
def telephoneIntents : List String :=
  ["GetTelephoneAddress", "CreateTelephoneAddress", "UpdateTelephoneAddress", "GeneralChat"]

/-- The postal domain's known intent set (`nlp_postal_service.py` line 158). -/
def postalIntents : List String :=
  ["GetPostalAddress", "CreatePostalAddress", "UpdatePostalAddress", "GeneralChat"]

/-- `parsed.get("intent", "")` coerced for the membership test: a missing
or non-string intent can never equal a known intent name, so it reads as
`""` (which is not in any known set), exactly matching the Python check. -/
def responseIntentStr (parsed : List (String × PyVal)) : String :=
  match alookup parsed "intent" with
  | some (.vLeaf (.lStr s)) => s
  | _ => ""

/-- `parsed.get("entities", \x7b\x7d)`. -/
def responseEntities (parsed : List (String × PyVal)) : PyVal :=
  match alookup parsed "entities" with
  | some v => v
  | none => .vDict []

/-- Shared body of `extract_telephone_details` / `extract_postal_details`
applied to the raw model response: strip, strip fences, `json.loads`
(raising `ValueError` on failure, modelled as `.error`), then force any
unknown intent to `GeneralChat` and keep the response's entities. -/
def extractFromResponse (known : List String) (jsonLoads : JsonLoads)
    (response : String) : Except String ExtractOut :=
  let r := pickJsonPayload (pyStrip response)
  match jsonLoads r with
  | none => .error ("Invalid JSON from LLM: " ++ r)
  | some parsed =>
    let i := responseIntentStr parsed
    .ok { intent := if known.contains i then i else "GeneralChat"
          entities := responseEntities parsed }

/-- `nlp_service.extract_telephone_details`, with the LLM call abstracted
to the response string it produced. -/
def extract_telephone_details (jsonLoads : JsonLoads) (response : String) :
    Except String ExtractOut :=
  extractFromResponse telephoneIntents jsonLoads response

/-- `nlp_postal_service.extract_postal_details`, with the LLM call
abstracted to the response string it produced. -/
def extract_postal_details (jsonLoads : JsonLoads) (response : String) :
    Except String ExtractOut :=
  extractFromResponse postalIntents jsonLoads response

/-! ## Exceptions and the HTTP boundary -/

/-- Python exceptions raised by the backend, tagged by class:
`fastapi.HTTPException(status, detail)`, `ValueError`, `TypeError`,
`RuntimeError`. -/
inductive AppError where
  | httpExc : Nat → String → AppError
  | valueError : String → AppError
  | typeError : String → AppError
  | runtimeError : String → AppError
deriving DecidableEq, Repr

/-- What a handler returns on success: an SAP data payload or a chat reply
(`\x7b"status": "success", "type": "sap"|"general", ...\x7d`). -/
inductive RouteResult where
  | sap : PyVal → RouteResult
  | chat : String → RouteResult
deriving DecidableEq, Repr

/-- The HTTP response the endpoint produces. -/
inductive HttpOut where
  | ok : RouteResult → HttpOut
  | err : Nat → String → HttpOut
deriving DecidableEq, Repr

/-- The `except` chain of `main.py` lines 137-145 (identical in
`dynamic_router.py` lines 85-92): `HTTPException` bubbles up unchanged,
`ValueError` becomes a 400 with its message, anything else becomes a 500
with a generic detail. -/
def httpBoundary : Except AppError RouteResult → HttpOut
  | .ok r => .ok r
  | .error (.httpExc status detail) => .err status detail
  | .error (.valueError msg) => .err 400 msg
  | .error (.typeError _) => .err 500 "Internal Server Error"
  | .error (.runtimeError _) => .err 500 "Internal Server Error"

/-! ## SAP remote-service clients -/

/-- The JSON body of a write request: the telephone client sends the
cleaned entity map directly (`json=clean_entities`), the postal client
wraps it (`json=\x7b"d": clean_entities\x7d`); `dWrapped m` denotes that
wrapped object. -/
inductive WritePayload where
  | plain : EntityMap → WritePayload
  | dWrapped : EntityMap → WritePayload
deriving DecidableEq, Repr

/-- One outbound HTTP call to the SAP system, as observed by a stub. -/
inductive RemoteCall where
  | getCollection : String → RemoteCall
  | getByKey : String → PyLeaf → RemoteCall
  | csrfFetch : String → RemoteCall
  | postCreate : String → WritePayload → RemoteCall
  | patchUpdate : String → PyLeaf → WritePayload → RemoteCall
  | putUpdate : String → PyLeaf → WritePayload → RemoteCall
deriving DecidableEq, Repr

/-- Whether a call is a write (POST / PATCH / PUT). -/
def isWriteCall : RemoteCall → Bool
  | .postCreate _ _ => true
  | .patchUpdate _ _ _ => true
  | .putUpdate _ _ _ => true
  | _ => false

/-- The JSON body carried by a write call. -/
def writePayload : RemoteCall → Option WritePayload
  | .postCreate _ p => some p
  | .patchUpdate _ _ p => some p
  | .putUpdate _ _ p => some p
  | _ => none

/-- State of the telephone SAP collection, keyed by PLANT.  The server is
modelled as well-behaved: GET by key answers 200 exactly when the key
exists (404 otherwise), the CSRF fetch succeeds, PATCH answers 204 and
POST answers 201 and creates the record — the regime in which
`sap_service.py`'s status-code checks take their success branches. -/
structure TelSrv where
  existing : List PyLeaf
  allData : PyVal
deriving DecidableEq, Repr

/-- `sap_service.get_telephone_address`: GET the whole collection and
unwrap the OData envelope (the unwrapped result is `allData`). -/
def get_telephone_address (srv : TelSrv) :
    Except AppError PyVal × List RemoteCall :=
  (.ok srv.allData, [.getCollection "TELEPHONEADDRSet"])

/-- `sap_service.get_telephone_address_by_plant`: `ValueError` on a falsy
plant, otherwise GET by key; under the well-behaved server model the
result is `some` record on 200 and `none` on 404. -/
def get_telephone_address_by_plant (srv : TelSrv) (plant : PyLeaf) :
    Except AppError (Option PyLeaf) × List RemoteCall :=
  if !(leafTruthy plant) then (.error (.valueError "plant is required"), [])
  else
    (.ok (if srv.existing.contains plant then some plant else none),
     [.getByKey "TELEPHONEADDRSet" plant])

deriving instance DecidableEq for Except

/-- Outcome of a telephone upsert: result, updated server state, and the
trace of outbound calls. -/
structure TelStep where
  result : Except AppError PyVal
  srv : TelSrv
  calls : List RemoteCall
deriving DecidableEq, Repr

/-- `sap_service.create_update_telephone_address` (lines 100-146): strip
null/empty fields, require PLANT on the stripped map, check existence
first with GET by key, fetch a CSRF token, then issue PATCH (record
exists) or POST (record absent). -/
def create_update_telephone_address (srv : TelSrv) (entities : EntityMap) : TelStep :=
  let clean := cleanEntities entities
  let plant := (alookup clean "PLANT").getD .lNone
  if !(leafTruthy plant) then
    { result := .error (.valueError "PLANT must be provided to identify the record")
      srv := srv, calls := [] }
  else
    match get_telephone_address_by_plant srv plant with
    | (.error e, calls) => { result := .error e, srv := srv, calls := calls }
    | (.ok record, calls) =>
      let preCalls := calls ++ [.csrfFetch "TELEPHONEADDRSet"]
      if record.isSome then
        { result := .ok (.vDict [("status", .lStr "success"),
            ("message", .lStr ("Plant " ++ leafStr plant ++ " telephone address updated"))])
          srv := srv
          calls := preCalls ++ [.patchUpdate "TELEPHONEADDRSet" plant (.plain clean)] }
      else
        { result := .ok (.vDict [("status", .lStr "success"),
            ("message", .lStr "Record created")])
          srv := { srv with existing := plant :: srv.existing }
          calls := preCalls ++ [.postCreate "TELEPHONEADDRSet" (.plain clean)] }

/-- Configured behaviour of the postal SAP endpoint for one upsert: the
CSRF fetch outcome and the statuses/bodies the server answers to the POST
and to the fallback PUT.  `postResult` is the parsed body a successful
POST returns. -/
structure PostSrv where
  csrfOk : Bool
  postStatus : Nat
  postBody : String
  postResult : PyVal
  putStatus : Nat
  putBody : String
  allData : PyVal
deriving DecidableEq, Repr

/-- `sap_postal_service.get_postal_address`: GET the whole collection and
unwrap `d.results` (the unwrapped result is `allData`). -/
def get_postal_address (srv : PostSrv) :
    Except AppError PyVal × List RemoteCall :=
  (.ok srv.allData, [.getCollection "POSTADDRSet"])

/-- Outcome of a postal upsert: result and trace of outbound calls. -/
structure PostStep where
  result : Except AppError PyVal
  calls : List RemoteCall
deriving DecidableEq, Repr

/-- `sap_postal_service.create_update_postal_address` (lines 84-133):
strip null/empty fields, require PLANT on the stripped map, fetch a CSRF
token from the service root, POST `\x7b"d": clean\x7d`; on POST status
200/201 succeed; on 400/403/409 retry once as PUT keyed by PLANT, which
succeeds on 200/204 and otherwise raises carrying the PUT body; any other
POST status raises carrying the POST body. -/
def create_update_postal_address (srv : PostSrv) (entities : EntityMap) : PostStep :=
  let clean := cleanEntities entities
  if !(pyGetTruthy clean "PLANT") then
    { result := .error (.valueError "PLANT must be provided to identify the record")
      calls := [] }
  else
    let plant := (alookup clean "PLANT").getD .lNone
    if !srv.csrfOk then
      { result := .error (.runtimeError "Failed to fetch CSRF token")
        calls := [.csrfFetch ""] }
    else
      let payload : WritePayload := .dWrapped clean
      let postCalls := [.csrfFetch "", .postCreate "POSTADDRSet" payload]
      if srv.postStatus == 200 || srv.postStatus == 201 then
        { result := .ok srv.postResult, calls := postCalls }
      else if srv.postStatus == 400 || srv.postStatus == 403 || srv.postStatus == 409 then
        if srv.putStatus == 200 || srv.putStatus == 204 then
          { result := .ok (.vDict [("status", .lStr "success"),
              ("message", .lStr ("Plant " ++ leafStr plant ++ " postal address updated"))])
            calls := postCalls ++ [.putUpdate "POSTADDRSet" plant payload] }
        else
          { result := .error (.runtimeError
              ("Failed to update Postal Address " ++ leafStr plant ++ ": " ++ srv.putBody))
            calls := postCalls ++ [.putUpdate "POSTADDRSet" plant payload] }
      else
        { result := .error (.runtimeError ("Failed to create Postal Address: " ++ srv.postBody))
          calls := postCalls }

/-! ## The v1 endpoint (`main.py`) -/

/-- External collaborators of one request: the abstract `json.loads`, the
raw LLM responses received by the two extractors, the general-chat reply,
and the two SAP server models. -/
structure Deps where
  jsonLoads : JsonLoads
  telResp : String
  postResp : String
  chatReply : String
  telSrv : TelSrv
  postSrv : PostSrv

/-- `main.ensure_required_fields` (lines 78-85): collect the required
fields that are falsy in the entity map and raise
`HTTPException(400, "Missing required field(s): ...")` if any. -/
def ensure_required_fields (entities : EntityMap) (required : List String) :
    Except AppError Unit :=
  match required.filter (fun f => !(pyGetTruthy entities f)) with
  | [] => .ok ()
  | missing => .error (.httpExc 400 ("Missing required field(s): " ++ joinCommaSpace missing))

/-- Reconciliation of the two extraction results (`main.py` lines 97-103,
identically `dynamic_router.py` lines 57-65): prefer whichever extractor
did not return GeneralChat, telephone first; if both returned GeneralChat
the intent is GeneralChat with an empty entity map. -/
def reconcileExtracts (tel post : ExtractOut) : String × PyVal :=
  if tel.intent != "GeneralChat" then (tel.intent, tel.entities)
  else if post.intent != "GeneralChat" then (post.intent, post.entities)
  else ("GeneralChat", .vDict [])

/-- The entity dict of an extractor result (`extracted_data.get("entities",
\x7b\x7d)` read as a dict; the claims only exercise dict-shaped entities). -/
def entitiesDictOf : PyVal → EntityMap
  | .vDict kvs => kvs
  | .vLeaf _ => []

/-- Outcome of one request: result, updated telephone server state, and
the trace of outbound SAP calls. -/
structure QueryStep where
  result : Except AppError RouteResult
  telSrv : TelSrv
  calls : List RemoteCall
deriving DecidableEq, Repr

/-- The intent dispatch of `main.process_user_query` (lines 109-135):
route Get intents to the collection GETs, Create/Update intents through
`ensure_required_fields(entities, ["PLANT"])` and then the matching
upsert, and GeneralChat — like any unknown intent — to the chat model. -/
def route_intent (d : Deps) (intent : String) (entities : PyVal) : QueryStep :=
  match intent with
  | "GetTelephoneAddress" =>
    match get_telephone_address d.telSrv with
    | (r, calls) => { result := r.map .sap, telSrv := d.telSrv, calls := calls }
  | "CreateTelephoneAddress" | "UpdateTelephoneAddress" =>
    match ensure_required_fields (entitiesDictOf entities) ["PLANT"] with
    | .error e => { result := .error e, telSrv := d.telSrv, calls := [] }
    | .ok _ =>
      let st := create_update_telephone_address d.telSrv (entitiesDictOf entities)
      { result := st.result.map .sap, telSrv := st.srv, calls := st.calls }
  | "GetPostalAddress" =>
    match get_postal_address d.postSrv with
    | (r, calls) => { result := r.map .sap, telSrv := d.telSrv, calls := calls }
  | "CreatePostalAddress" | "UpdatePostalAddress" =>
    match ensure_required_fields (entitiesDictOf entities) ["PLANT"] with
    | .error e => { result := .error e, telSrv := d.telSrv, calls := [] }
    | .ok _ =>
      let st := create_update_postal_address d.postSrv (entitiesDictOf entities)
      { result := st.result.map .sap, telSrv := d.telSrv, calls := st.calls }
  | _ => { result := .ok (.chat d.chatReply), telSrv := d.telSrv, calls := [] }

/-- `main.process_user_query` (lines 90-135): run both extractors (an
extraction `ValueError` propagates and aborts the request), reconcile,
then dispatch on the intent. -/
def process_user_query (d : Deps) : QueryStep :=
  match extract_telephone_details d.jsonLoads d.telResp with
  | .error m => { result := .error (.valueError m), telSrv := d.telSrv, calls := [] }
  | .ok tel =>
    match extract_postal_details d.jsonLoads d.postResp with
    | .error m => { result := .error (.valueError m), telSrv := d.telSrv, calls := [] }
    | .ok post =>
      let ie := reconcileExtracts tel post
      route_intent d ie.1 ie.2

/-! ## The v3 dynamic router (`dynamic_router.py` and `core/`) -/

/-- Configuration of one intent in `config/intents.json`: the handler
module under `core.handlers` and the required entity fields. -/
structure IntentMeta where
  handler : Option String
  required : List String
deriving DecidableEq, Repr

/-- Top-level names defined by `services/sap_service.py`. -/
def sap_service_names : List String :=
  ["fetch_csrf_token", "get_telephone_address", "get_telephone_address_by_plant",
   "create_update_telephone_address"]

/-- Top-level names defined by `services/sap_postal_service.py`. -/
def sap_postal_service_names : List String :=
  ["fetch_csrf_token", "get_postal_address", "create_update_postal_address"]

/-- Names `core/handlers/sap_telephone.py` imports from
`services.sap_service` (line 6). -/
def sap_telephone_handler_imports : List String :=
  ["get_telephone_address", "create_update_telephone_address"]

/-- Names `core/handlers/sap_postal.py` imports from
`services.sap_postal_service` (lines 6-9). -/
def sap_postal_handler_imports : List String :=
  ["get_telephone_address", "create_update_telephone_address"]

/-- Whether `importlib.import_module("core.handlers." + m)` succeeds: each
handler module loads iff every name in its `from ... import ...` exists in
the imported-from module (`general_chat.py` imports only stdlib/langchain
names, which exist). -/
def handlerModuleImportOk : String → Bool
  | "sap_telephone" => sap_telephone_handler_imports.all (fun n => sap_service_names.contains n)
  | "sap_postal" => sap_postal_handler_imports.all (fun n => sap_postal_service_names.contains n)
  | "general_chat" => true
  | _ => false

/-- The handler-registration loop of `dynamic_router.py` (lines 33-41):
for each configured intent with a handler module, register it iff the
module import succeeds (a failed import only logs a warning).  The
registry maps intent name to handler module name. -/
def registryOf (cfg : List (String × IntentMeta)) : List (String × String) :=
  cfg.filterMap (fun im =>
    match im.2.handler with
    | none => none
    | some h => if handlerModuleImportOk h then some (im.1, h) else none)

/-- `core/handlers/base.ensure_required`: the labels of required fields
that are falsy in the entity map; raises `ValueError` if any. -/
def ensure_required (entities : EntityMap) (required : List (String × String)) :
    Except AppError Unit :=
  match (required.filter (fun fl => !(pyGetTruthy entities fl.1))).map (fun fl => fl.2) with
  | [] => .ok ()
  | missing => .error (.valueError ("Missing required field(s): " ++ joinCommaSpace missing))

/-- `core/handlers/sap_telephone.handle`. -/
def sap_telephone_handle (d : Deps) (intent : String) (entities : EntityMap) : QueryStep :=
  match intent with
  | "GetTelephoneAddress" =>
    match get_telephone_address d.telSrv with
    | (r, calls) => { result := r.map .sap, telSrv := d.telSrv, calls := calls }
  | "CreateTelephoneAddress" | "UpdateTelephoneAddress" =>
    match ensure_required entities [("PLANT", "PLANT")] with
    | .error e => { result := .error e, telSrv := d.telSrv, calls := [] }
    | .ok _ =>
      let st := create_update_telephone_address d.telSrv entities
      { result := st.result.map .sap, telSrv := st.srv, calls := st.calls }
  | _ =>
    { result := .error (.valueError ("Unsupported intent for telephone handler: " ++ intent))
      telSrv := d.telSrv, calls := [] }

/-- `core/handlers/general_chat.handle`: sends the user query (or the
`question` entity, or "Hello") to the chat model; the reply is the
abstracted `chatReply`. -/
def general_chat_handle (d : Deps) : QueryStep :=
  { result := .ok (.chat d.chatReply), telSrv := d.telSrv, calls := [] }

/-- `IntentRegistry.dispatch` (`core/intent_registry.py` lines 31-34):
raise `ValueError` for an unregistered intent, otherwise invoke the
registered module's `handle`.  `core/handlers/sap_postal.py` can never be
the target because its import always fails (see `handlerModuleImportOk`),
so only the telephone and general-chat modules are dispatchable. -/
def registry_dispatch (d : Deps) (reg : List (String × String)) (intent : String)
    (entities : EntityMap) : QueryStep :=
  match alookup reg intent with
  | none =>
    { result := .error (.valueError ("No handler registered for intent \x27" ++ intent ++ "\x27"))
      telSrv := d.telSrv, calls := [] }
  | some m =>
    match m with
    | "sap_telephone" => sap_telephone_handle d intent entities
    | "general_chat" => general_chat_handle d
    | other =>
      { result := .error (.valueError ("No handler registered for intent \x27" ++ other ++ "\x27"))
        telSrv := d.telSrv, calls := [] }

/-- The request body of `/v3/route` (`dynamic_router.DynamicPayload`,
lines 44-47): all fields optional, no cross-field validator. -/
structure DynamicPayload where
  user_query : Option String
  intent : Option String
  entities : EntityMap

/-- Python truthiness of an optional string field. -/
def optStrTruthy : Option String → Bool
  | none => false
  | some s => !(s == "")

/-- The config-validation and dispatch tail of `route_dynamic`
(`dynamic_router.py` lines 70-83): unknown or unregistered intents fall
back to GeneralChat (whose config supplies the required-field list, empty
by default), missing required fields raise `HTTPException(400, ...)`,
then the registry dispatches. -/
def route_dynamic_dispatch (cfg : List (String × IntentMeta)) (d : Deps)
    (intent0 : String) (entities : EntityMap) : QueryStep :=
  let reg := registryOf cfg
  let known := (alookup cfg intent0).isSome && (alookup reg intent0).isSome
  let intent := if known then intent0 else "GeneralChat"
  let meta := if known then (alookup cfg intent0).getD ⟨none, []⟩
              else (alookup cfg "GeneralChat").getD ⟨none, []⟩
  match meta.required.filter (fun f => !(pyGetTruthy entities f)) with
  | [] => registry_dispatch d reg intent entities
  | missing =>
    { result := .error (.httpExc 400 ("Missing required field(s): " ++ joinCommaSpace missing))
      telSrv := d.telSrv, calls := [] }

/-- `dynamic_router.route_dynamic` (lines 50-92): if a truthy
`user_query` is supplied, run both extractors and reconcile exactly as in
`main.py`; otherwise take the explicit intent (defaulting a falsy one to
GeneralChat) and entities from the payload; then validate against the
config and dispatch. -/
def route_dynamic (cfg : List (String × IntentMeta)) (d : Deps)
    (payload : DynamicPayload) : QueryStep :=
  if optStrTruthy payload.user_query then
    match extract_telephone_details d.jsonLoads d.telResp with
    | .error m => { result := .error (.valueError m), telSrv := d.telSrv, calls := [] }
    | .ok tel =>
      match extract_postal_details d.jsonLoads d.postResp with
      | .error m => { result := .error (.valueError m), telSrv := d.telSrv, calls := [] }
      | .ok post =>
        if tel.intent != "GeneralChat" then
          route_dynamic_dispatch cfg d tel.intent (entitiesDictOf tel.entities)
        else if post.intent != "GeneralChat" then
          route_dynamic_dispatch cfg d post.intent (entitiesDictOf post.entities)
        else
          route_dynamic_dispatch cfg d "GeneralChat" []
  else
    let intent := match payload.intent with
      | some s => if s == "" then "GeneralChat" else s
      | none => "GeneralChat"
    route_dynamic_dispatch cfg d intent payload.entities

/-- Modelled from the spec: the intents configuration file
`Backend/config/intents.json` is not part of the source tree (only its
loader in `dynamic_router.py` is).  Per the spec's configuration surface
("field-required lists per intent — supplied via ... a config file") and
intent/handler inventory, each domain intent maps to its domain handler
module with PLANT required for the create/update intents, and GeneralChat
maps to the general-chat handler with no required fields. -/
def intentsConfig : List (String × IntentMeta) :=
  [("GetTelephoneAddress", ⟨some "sap_telephone", []⟩),
   ("CreateTelephoneAddress", ⟨some "sap_telephone", ["PLANT"]⟩),
   ("UpdateTelephoneAddress", ⟨some "sap_telephone", ["PLANT"]⟩),
   ("GetPostalAddress", ⟨some "sap_postal", []⟩),
   ("CreatePostalAddress", ⟨some "sap_postal", ["PLANT"]⟩),
   ("UpdatePostalAddress", ⟨some "sap_postal", ["PLANT"]⟩),
   ("GeneralChat", ⟨some "general_chat", []⟩)]

/-- `schemas.DynamicRequest` (lines 7-16): the same shape as
`DynamicPayload` plus a model validator. -/
structure DynamicRequest where
  user_query : Option String
  intent : Option String
  entities : EntityMap

/-- The `model_validator` of `schemas.DynamicRequest` (lines 12-16):
reject a request in which both `user_query` and `intent` are falsy. -/
def dynamicRequestValidate (r : DynamicRequest) : Except String DynamicRequest :=
  if !(optStrTruthy r.user_query) && !(optStrTruthy r.intent) then
    .error "Provide either \x27user_query\x27 or (\x27intent\x27 + \x27entities\x27)"
  else .ok r

/-! ## A concrete `json.loads` model

A small executable JSON parser covering the response shapes exercised in
concrete tests: a top-level object whose members are strings or one-level
objects of strings, with no escape sequences.  On everything else it
answers `none`, as `json.loads` raises on the malformed inputs used here
(strings that do not start with an object at all). -/

/-- Parse a JSON string literal (no escapes): content after the opening
quote, returning the content and the rest after the closing quote. -/
def parseJStringAux : List Char → List Char → Option (String × List Char)
  | [], _ => none
  | c :: rest, acc =>
    if c == '"' then some (⟨acc.reverse⟩, rest)
    else if c == '\\' then none
    else parseJStringAux rest (c :: acc)

/-- Parse a JSON string literal starting at an opening quote. -/
def parseJString : List Char → Option (String × List Char)
  | '"' :: rest => parseJStringAux rest []
  | _ => none

/-- Parse the members of a flat object of string values, starting after
the opening brace (first member expected); fuel-driven. -/
def parseFlatMembers : Nat → List Char → EntityMap → Option (EntityMap × List Char)
  | 0, _, _ => none
  | fuel + 1, cs, acc =>
    match parseJString (dropLeadingSpace cs) with
    | none => none
    | some (k, rest) =>
      match dropLeadingSpace rest with
      | ':' :: rest2 =>
        match parseJString (dropLeadingSpace rest2) with
        | none => none
        | some (v, rest3) =>
          match dropLeadingSpace rest3 with
          | ',' :: rest4 => parseFlatMembers fuel rest4 ((k, .lStr v) :: acc)
          | '}' :: rest5 => some (((k, .lStr v) :: acc).reverse, rest5)
          | _ => none
      | _ => none

/-- Parse a flat object `\x7b"k": "v", ...\x7d` starting at its brace. -/
def parseFlatObject (cs : List Char) : Option (EntityMap × List Char) :=
  match cs with
  | '{' :: rest =>
    match dropLeadingSpace rest with
    | '}' :: rest2 => some ([], rest2)
    | body => parseFlatMembers (body.length + 1) body []
  | _ => none

/-- Parse the members of the top-level object: values are strings or flat
objects; fuel-driven. -/
def parseTopMembers : Nat → List Char → List (String × PyVal) →
    Option (List (String × PyVal) × List Char)
  | 0, _, _ => none
  | fuel + 1, cs, acc =>
    match parseJString (dropLeadingSpace cs) with
    | none => none
    | some (k, rest) =>
      match dropLeadingSpace rest with
      | ':' :: rest2 =>
        let valRest : Option (PyVal × List Char) :=
          match parseJString (dropLeadingSpace rest2) with
          | some (v, rest3) => some (.vLeaf (.lStr v), rest3)
          | none =>
            match parseFlatObject (dropLeadingSpace rest2) with
            | some (kvs, rest3) => some (.vDict kvs, rest3)
            | none => none
        match valRest with
        | none => none
        | some (v, rest3) =>
          match dropLeadingSpace rest3 with
          | ',' :: rest4 => parseTopMembers fuel rest4 ((k, v) :: acc)
          | '}' :: rest5 => some (((k, v) :: acc).reverse, rest5)
          | _ => none
      | _ => none

/-- The concrete `json.loads` model: a top-level JSON object (as in every
well-formed model response), `none` on anything else. -/
def jsonLoadsModel (s : String) : Option (List (String × PyVal)) :=
  match dropLeadingSpace s.data with
  | '{' :: rest =>
    match dropLeadingSpace rest with
    | '}' :: rest2 => if (dropLeadingSpace rest2).isEmpty then some [] else none
    | body =>
      match parseTopMembers (body.length + 1) body [] with
      | some (kvs, rest3) => if (dropLeadingSpace rest3).isEmpty then some kvs else none
      | none => none
  | _ => none

/-! ## Concrete fixtures and fence-wrapping helpers -/

/-- A concrete dependency bundle for closed evaluations: a `json.loads`
that always fails, empty responses, a fixed chat reply, an empty telephone
collection, and a postal server that accepts creates. -/
def depsStub : Deps :=
  { jsonLoads := fun _ => none
    telResp := ""
    postResp := ""
    chatReply := "OK"
    telSrv := { existing := [], allData := .vDict [] }
    postSrv := { csrfOk := true, postStatus := 201, postBody := "", postResult := .vDict []
                 putStatus := 204, putBody := "", allData := .vDict [] } }

/-- A model response consisting of the JSON text wrapped in bare
triple-backtick code fences. -/
def fenceWrap (j : String) : String := "```\n" ++ j ++ "\n```"

/-- A valid JSON object whose string value contains a triple-backtick
marker. -/
def backtickJson : String := "\x7b\"a\": \"``` b ```\"\x7d"

/-- No suffix of `cs`, continued by a trailing fence marker, starts with
the fence marker: the scan of `splitOnFuel` over `cs ++ fence` finds its
first separator match exactly at the appended fence. -/
def noEarlyFenceMatch : List Char → Bool
  | [] => true
  | c :: cs => !(isPrefixList fenceMarker.data ((c :: cs) ++ fenceMarker.data))
      && noEarlyFenceMatch cs

/-! ## Auxiliary lemmas -/

/-- `leafTruthy ((alookup m k).getD .lNone)` is the truthiness of
`m.get(k)`. -/
theorem leafTruthy_getD_alookup (m : EntityMap) (k : String) :
    leafTruthy ((alookup m k).getD .lNone) = pyGetTruthy m k := by
  unfold pyGetTruthy
  cases alookup m k <;> simp [Option.getD, leafTruthy]

/-! ## C2: reconciliation of the two extraction results -/

/-- C2: for every pair of extraction results, a non-GeneralChat telephone
result is authoritative; otherwise a non-GeneralChat postal result is;
otherwise the dispatched intent is GeneralChat with an empty entity map —
so telephone always takes priority over postal. -/
theorem c2_reconcile_prefers_telephone (tel post : ExtractOut) :
    (tel.intent ≠ "GeneralChat" →
       reconcileExtracts tel post = (tel.intent, tel.entities)) ∧
    (tel.intent = "GeneralChat" → post.intent ≠ "GeneralChat" →
       reconcileExtracts tel post = (post.intent, post.entities)) ∧
    (tel.intent = "GeneralChat" → post.intent = "GeneralChat" →
       reconcileExtracts tel post = ("GeneralChat", .vDict [])) := by
  refine ⟨fun h1 => ?_, fun h1 h2 => ?_, fun h1 h2 => ?_⟩ <;>
    simp [reconcileExtracts, h1, *]

/-- C2 witness: a structured telephone result wins over a structured
postal result. -/
theorem c2_reconcile_prefers_telephone_witness :
    reconcileExtracts ⟨"CreateTelephoneAddress", .vDict [("PLANT", .lStr "1000")]⟩
        ⟨"CreatePostalAddress", .vDict []⟩
      = ("CreateTelephoneAddress", .vDict [("PLANT", .lStr "1000")]) :=
  (c2_reconcile_prefers_telephone ⟨"CreateTelephoneAddress", .vDict [("PLANT", .lStr "1000")]⟩
      ⟨"CreatePostalAddress", .vDict []⟩).1 (by decide)

/-! ## C1: PLANT is validated before any remote call -/

/-- C1: for every create/update intent and entity map whose PLANT is
absent or falsy, `process_user_query`'s dispatch fails with the 400
validation error naming PLANT, makes no remote call at all (no fetch, no
CSRF acquisition, no write), and the HTTP boundary surfaces the 400. -/
theorem c1_plant_required_before_any_remote_call (d : Deps) (intent : String)
    (kvs : EntityMap)
    (hintent : intent = "CreateTelephoneAddress" ∨ intent = "UpdateTelephoneAddress" ∨
      intent = "CreatePostalAddress" ∨ intent = "UpdatePostalAddress")
    (hplant : pyGetTruthy kvs "PLANT" = false) :
    (route_intent d intent (.vDict kvs)).result
      = .error (.httpExc 400 "Missing required field(s): PLANT") ∧
    (route_intent d intent (.vDict kvs)).calls = [] ∧
    httpBoundary (route_intent d intent (.vDict kvs)).result
      = .err 400 "Missing required field(s): PLANT" := by
  have hmiss : ensure_required_fields kvs ["PLANT"]
      = .error (.httpExc 400 "Missing required field(s): PLANT") := by
    simp [ensure_required_fields, List.filter, hplant, joinCommaSpace]
  rcases hintent with h | h | h | h <;> subst h <;>
    simp [route_intent, entitiesDictOf, hmiss, httpBoundary]

/-- C1 witness: a create intent with an empty-string PLANT is rejected
with the PLANT-naming 400 and an empty remote-call trace. -/
theorem c1_plant_required_before_any_remote_call_witness :
    (route_intent depsStub "CreateTelephoneAddress" (.vDict [("PLANT", .lStr "")])).result
      = .error (.httpExc 400 "Missing required field(s): PLANT") ∧
    (route_intent depsStub "CreateTelephoneAddress" (.vDict [("PLANT", .lStr "")])).calls = [] ∧
    httpBoundary (route_intent depsStub "CreateTelephoneAddress"
        (.vDict [("PLANT", .lStr "")])).result
      = .err 400 "Missing required field(s): PLANT" :=
  c1_plant_required_before_any_remote_call depsStub "CreateTelephoneAddress"
    [("PLANT", .lStr "")] (Or.inl rfl) (by decide)

/-! ## C5: unparseable model output is a propagated 400, never retried -/

/-- C5: whenever the telephone extractor's model response fails JSON
parsing (after fence stripping), `process_user_query` propagates the parse
`ValueError` (it is not swallowed), the HTTP boundary surfaces it as a
400-status client error carrying the parse message, and the request makes
no outbound SAP call (so nothing is retried). -/
theorem c5_parse_error_propagates_as_400 (d : Deps)
    (h : d.jsonLoads (pickJsonPayload (pyStrip d.telResp)) = none) :
    (process_user_query d).result
      = .error (.valueError ("Invalid JSON from LLM: "
          ++ pickJsonPayload (pyStrip d.telResp))) ∧
    httpBoundary (process_user_query d).result
      = .err 400 ("Invalid JSON from LLM: " ++ pickJsonPayload (pyStrip d.telResp)) ∧
    (process_user_query d).calls = [] := by
  simp [process_user_query, extract_telephone_details, extractFromResponse, h, httpBoundary]

/-- C5 witness: with a failing `json.loads` the stub request surfaces the
400 parse error and records no remote call. -/
theorem c5_parse_error_propagates_as_400_witness :
    (process_user_query depsStub).result = .error (.valueError "Invalid JSON from LLM: ") ∧
    httpBoundary (process_user_query depsStub).result = .err 400 "Invalid JSON from LLM: " ∧
    (process_user_query depsStub).calls = [] := by
  have h := c5_parse_error_propagates_as_400 depsStub (by decide)
  simpa [depsStub, pickJsonPayload, pyStrip, pyStripList, dropLeadingSpace,
    containsStr, containsList, fenceMarker] using h

/-! ## C7: unknown intents are normalized to GeneralChat, entities kept -/

/-- C7: for every parsed model response whose intent value lies outside
the extractor's known intent set, the extractor (the shared body of
`extract_telephone_details` and `extract_postal_details`, each obtained by
instantiating `known` with its domain's intent set) returns intent
GeneralChat with the response's entities unchanged, and does not raise. -/
theorem c7_unknown_intent_forced_to_general_chat (known : List String)
    (jsonLoads : JsonLoads) (resp : String) (parsed : List (String × PyVal))
    (hparse : jsonLoads (pickJsonPayload (pyStrip resp)) = some parsed)
    (hunknown : known.contains (responseIntentStr parsed) = false) :
    extractFromResponse known jsonLoads resp
      = .ok { intent := "GeneralChat", entities := responseEntities parsed } := by
  have hmem : responseIntentStr parsed ∉ known := by simpa using hunknown
  simp [extractFromResponse, hparse, hmem]

/-- C7 witness: a response classifying as `Bogus` with a PLANT entity is
normalized to GeneralChat with the same entities, for the telephone
intent set. -/
theorem c7_unknown_intent_forced_to_general_chat_witness :
    extractFromResponse telephoneIntents
        (fun _ => some [("intent", .vLeaf (.lStr "Bogus")),
          ("entities", .vDict [("PLANT", .lStr "1000")])]) "x"
      = .ok { intent := "GeneralChat", entities := .vDict [("PLANT", .lStr "1000")] } :=
  c7_unknown_intent_forced_to_general_chat telephoneIntents
    (fun _ => some [("intent", .vLeaf (.lStr "Bogus")),
      ("entities", .vDict [("PLANT", .lStr "1000")])]) "x"
    [("intent", .vLeaf (.lStr "Bogus")), ("entities", .vDict [("PLANT", .lStr "1000")])]
    rfl (by decide)

/-! ## C9: null/empty stripping and PLANT checked on the stripped map -/

/-- C9: for every input entity map, the cleaned map consists of exactly
the input entries whose values are not `None`, `""` or `[]`; every write
issued by either upsert carries exactly that cleaned map as its JSON body
(the postal client inside its OData `d` wrapper); and when PLANT is not
truthy on the stripped map both upserts raise the PLANT `ValueError`
without any outbound call. -/
theorem c9_write_payload_is_cleaned_map (srvT : TelSrv) (srvP : PostSrv)
    (kvs : EntityMap) :
    (∀ k v, (k, v) ∈ cleanEntities kvs ↔ ((k, v) ∈ kvs ∧ isNullEmptyVal v = false)) ∧
    (∀ c ∈ (create_update_telephone_address srvT kvs).calls,
       isWriteCall c = true → writePayload c = some (.plain (cleanEntities kvs))) ∧
    (∀ c ∈ (create_update_postal_address srvP kvs).calls,
       isWriteCall c = true → writePayload c = some (.dWrapped (cleanEntities kvs))) ∧
    (pyGetTruthy (cleanEntities kvs) "PLANT" = false →
       (create_update_telephone_address srvT kvs).result
         = .error (.valueError "PLANT must be provided to identify the record") ∧
       (create_update_telephone_address srvT kvs).calls = [] ∧
       (create_update_postal_address srvP kvs).result
         = .error (.valueError "PLANT must be provided to identify the record") ∧
       (create_update_postal_address srvP kvs).calls = []) := by
  refine ⟨?_, ?_, ?_, ?_⟩
  · intro k v
    simp [cleanEntities, List.mem_filter]
  · intro c hc hw
    by_cases hp : pyGetTruthy (cleanEntities kvs) "PLANT"
    · by_cases hex : ((alookup (cleanEntities kvs) "PLANT").getD .lNone) ∈ srvT.existing
      · simp [create_update_telephone_address, get_telephone_address_by_plant,
          leafTruthy_getD_alookup, hp, hex] at hc
        rcases hc with h | h | h <;> subst h <;> simp_all [isWriteCall, writePayload]
      · simp [create_update_telephone_address, get_telephone_address_by_plant,
          leafTruthy_getD_alookup, hp, hex] at hc
        rcases hc with h | h | h <;> subst h <;> simp_all [isWriteCall, writePayload]
    · simp [create_update_telephone_address, leafTruthy_getD_alookup, hp] at hc
  · intro c hc hw
    by_cases hp : pyGetTruthy (cleanEntities kvs) "PLANT"
    · by_cases hcs : srvP.csrfOk
      · by_cases h1 : (srvP.postStatus == 200 || srvP.postStatus == 201) = true
        · simp [create_update_postal_address, hp, hcs, h1] at hc
          rcases hc with h | h <;> subst h <;> simp_all [isWriteCall, writePayload]
        · by_cases h2 : (srvP.postStatus == 400 || srvP.postStatus == 403
              || srvP.postStatus == 409) = true
          · by_cases h3 : (srvP.putStatus == 200 || srvP.putStatus == 204) = true
            · simp [create_update_postal_address, hp, hcs, h1, h2, h3] at hc
              rcases hc with h | h | h <;> subst h <;> simp_all [isWriteCall, writePayload]
            · simp [create_update_postal_address, hp, hcs, h1, h2, h3] at hc
              rcases hc with h | h | h <;> subst h <;> simp_all [isWriteCall, writePayload]
          · simp [create_update_postal_address, hp, hcs, h1, h2] at hc
            rcases hc with h | h <;> subst h <;> simp_all [isWriteCall, writePayload]
      · simp [create_update_postal_address, hp, hcs] at hc
        subst hc
        simp [isWriteCall] at hw
    · simp [create_update_postal_address, hp] at hc
  · intro hp
    refine ⟨?_, ?_, ?_, ?_⟩ <;>
      simp [create_update_telephone_address, create_update_postal_address,
        leafTruthy_getD_alookup, hp]

/-- C9 witness: an entity map whose PLANT is the empty string cleans to a
map without PLANT, so both upserts fail the PLANT check with no call. -/
theorem c9_write_payload_is_cleaned_map_witness :
    (create_update_telephone_address depsStub.telSrv [("PLANT", .lStr "")]).result
      = .error (.valueError "PLANT must be provided to identify the record") ∧
    (create_update_postal_address depsStub.postSrv [("PLANT", .lStr "")]).calls = [] := by
  have h := (c9_write_payload_is_cleaned_map depsStub.telSrv depsStub.postSrv
      [("PLANT", .lStr "")]).2.2.2 (by decide)
  exact ⟨h.1, h.2.2.2⟩

/-! ## C3: check-first telephone upsert and its idempotence -/

/-- C3: the telephone upsert first issues the GET by PLANT key, then the
CSRF fetch, then exactly one write — PATCH keyed by PLANT when the record
exists, POST to the entity set when it does not.  Consequently, starting
from a server without the PLANT: the first call POSTs and records the
PLANT as existing, and a second call with the same entities PATCHes (a
create is never issued twice for the same PLANT). -/
theorem c3_telephone_upsert_check_first (srv : TelSrv) (kvs : EntityMap) (p : PyLeaf)
    (hp : alookup (cleanEntities kvs) "PLANT" = some p)
    (ht : leafTruthy p = true) :
    ((create_update_telephone_address srv kvs).calls
      = [.getByKey "TELEPHONEADDRSet" p, .csrfFetch "TELEPHONEADDRSet",
         if p ∈ srv.existing then
           .patchUpdate "TELEPHONEADDRSet" p (.plain (cleanEntities kvs))
         else .postCreate "TELEPHONEADDRSet" (.plain (cleanEntities kvs))]) ∧
    (p ∉ srv.existing →
       (create_update_telephone_address srv kvs).srv.existing = p :: srv.existing ∧
       (create_update_telephone_address
           (create_update_telephone_address srv kvs).srv kvs).calls
         = [.getByKey "TELEPHONEADDRSet" p, .csrfFetch "TELEPHONEADDRSet",
            .patchUpdate "TELEPHONEADDRSet" p (.plain (cleanEntities kvs))]) := by
  constructor
  · by_cases hex : p ∈ srv.existing <;>
      simp [create_update_telephone_address, get_telephone_address_by_plant, hp, ht, hex]
  · intro hex
    have h1 : (create_update_telephone_address srv kvs).srv.existing = p :: srv.existing := by
      simp [create_update_telephone_address, get_telephone_address_by_plant, hp, ht, hex]
    refine ⟨h1, ?_⟩
    have h2 : (create_update_telephone_address srv kvs).srv
        = { existing := p :: srv.existing, allData := srv.allData } := by
      simp [create_update_telephone_address, get_telephone_address_by_plant, hp, ht, hex]
    rw [h2]
    simp [create_update_telephone_address, get_telephone_address_by_plant, hp, ht]

/-- C3 witness: on an empty collection, upserting PLANT 1000 POSTs first
and PATCHes on the repeated call. -/
theorem c3_telephone_upsert_check_first_witness :
    ((create_update_telephone_address ⟨[], .vDict []⟩ [("PLANT", .lStr "1000")]).calls
      = [.getByKey "TELEPHONEADDRSet" (.lStr "1000"), .csrfFetch "TELEPHONEADDRSet",
         .postCreate "TELEPHONEADDRSet" (.plain [("PLANT", .lStr "1000")])]) ∧
    (create_update_telephone_address
        (create_update_telephone_address ⟨[], .vDict []⟩ [("PLANT", .lStr "1000")]).srv
        [("PLANT", .lStr "1000")]).calls
      = [.getByKey "TELEPHONEADDRSet" (.lStr "1000"), .csrfFetch "TELEPHONEADDRSet",
         .patchUpdate "TELEPHONEADDRSet" (.lStr "1000")
           (.plain [("PLANT", .lStr "1000")])] := by
  have h := c3_telephone_upsert_check_first ⟨[], .vDict []⟩ [("PLANT", .lStr "1000")]
    (.lStr "1000") (by decide) (by decide)
  have h2 := h.2 (by decide)
  refine ⟨?_, h2.2⟩
  have := h.1
  simpa using this

/-! ## C4: postal upsert POST-then-PUT fallback -/

/-- C4: the postal upsert attempts the POST create first; it retries —
exactly once, as a PUT keyed by PLANT — precisely when the POST status is
400, 403 or 409; any other non-2xx POST status is a hard failure carrying
the POST response body with no further write, and a non-2xx PUT status is
a hard failure carrying the PUT response body with no further retry. -/
theorem c4_postal_upsert_fallback_statuses (srv : PostSrv) (kvs : EntityMap) (p : PyLeaf)
    (hp : alookup (cleanEntities kvs) "PLANT" = some p)
    (ht : leafTruthy p = true)
    (hc : srv.csrfOk = true) :
    ((create_update_postal_address srv kvs).calls.filter isWriteCall
      = if srv.postStatus = 400 ∨ srv.postStatus = 403 ∨ srv.postStatus = 409 then
          [.postCreate "POSTADDRSet" (.dWrapped (cleanEntities kvs)),
           .putUpdate "POSTADDRSet" p (.dWrapped (cleanEntities kvs))]
        else [.postCreate "POSTADDRSet" (.dWrapped (cleanEntities kvs))]) ∧
    (¬(200 ≤ srv.postStatus ∧ srv.postStatus < 300) →
       ¬(srv.postStatus = 400 ∨ srv.postStatus = 403 ∨ srv.postStatus = 409) →
       (create_update_postal_address srv kvs).result
         = .error (.runtimeError ("Failed to create Postal Address: " ++ srv.postBody))) ∧
    ((srv.postStatus = 400 ∨ srv.postStatus = 403 ∨ srv.postStatus = 409) →
       ¬(200 ≤ srv.putStatus ∧ srv.putStatus < 300) →
       (create_update_postal_address srv kvs).result
         = .error (.runtimeError
             ("Failed to update Postal Address " ++ leafStr p ++ ": " ++ srv.putBody))) := by
  have hpt : pyGetTruthy (cleanEntities kvs) "PLANT" = true := by
    unfold pyGetTruthy
    rw [hp]
    exact ht
  refine ⟨?_, ?_, ?_⟩
  · by_cases h1 : (srv.postStatus == 200 || srv.postStatus == 201) = true
    · have hno : ¬(srv.postStatus = 400 ∨ srv.postStatus = 403 ∨ srv.postStatus = 409) := by
        simp only [Bool.or_eq_true, beq_iff_eq] at h1
        omega
      simp [create_update_postal_address, hpt, hp, hc, h1, hno, isWriteCall]
    · by_cases h2 : (srv.postStatus == 400 || srv.postStatus == 403
          || srv.postStatus == 409) = true
      · have hyes : srv.postStatus = 400 ∨ srv.postStatus = 403 ∨ srv.postStatus = 409 := by
          simp only [Bool.or_eq_true, beq_iff_eq] at h2
          tauto
        by_cases h3 : (srv.putStatus == 200 || srv.putStatus == 204) = true <;>
          simp [create_update_postal_address, hpt, hp, hc, h1, h2, h3, hyes, isWriteCall]
      · have hno : ¬(srv.postStatus = 400 ∨ srv.postStatus = 403 ∨ srv.postStatus = 409) := by
          simp only [Bool.or_eq_true, beq_iff_eq] at h2
          tauto
        simp [create_update_postal_address, hpt, hp, hc, h1, h2, hno, isWriteCall]
  · intro hnot2xx hnofb
    have h1 : (srv.postStatus == 200 || srv.postStatus == 201) = false := by
      simp only [Bool.or_eq_true, beq_iff_eq, Bool.or_eq_false_iff, beq_eq_false_iff_ne, ne_eq]
      omega
    have h2 : (srv.postStatus == 400 || srv.postStatus == 403
        || srv.postStatus == 409) = false := by
      simp only [Bool.or_eq_false_iff, beq_eq_false_iff_ne, ne_eq]
      tauto
    simp [create_update_postal_address, hpt, hp, hc, h1, h2]
  · intro hfb hnot2xx
    have h1 : (srv.postStatus == 200 || srv.postStatus == 201) = false := by
      simp only [Bool.or_eq_false_iff, beq_eq_false_iff_ne, ne_eq]
      omega
    have h2 : (srv.postStatus == 400 || srv.postStatus == 403
        || srv.postStatus == 409) = true := by
      simp only [Bool.or_eq_true, beq_iff_eq]
      tauto
    have h3 : (srv.putStatus == 200 || srv.putStatus == 204) = false := by
      simp only [Bool.or_eq_false_iff, beq_eq_false_iff_ne, ne_eq]
      omega
    simp [create_update_postal_address, hpt, hp, hc, h1, h2, h3]

/-- C4 witness: a POST answered 409 retries exactly once as PUT, and a PUT
answered 500 hard-fails carrying the PUT body. -/
theorem c4_postal_upsert_fallback_statuses_witness :
    ((create_update_postal_address
        ⟨true, 409, "dup", .vDict [], 500, "boom", .vDict []⟩
        [("PLANT", .lStr "1000")]).calls.filter isWriteCall
      = [.postCreate "POSTADDRSet" (.dWrapped [("PLANT", .lStr "1000")]),
         .putUpdate "POSTADDRSet" (.lStr "1000")
           (.dWrapped [("PLANT", .lStr "1000")])]) ∧
    (create_update_postal_address
        ⟨true, 409, "dup", .vDict [], 500, "boom", .vDict []⟩
        [("PLANT", .lStr "1000")]).result
      = .error (.runtimeError "Failed to update Postal Address 1000: boom") := by
  have h := c4_postal_upsert_fallback_statuses
    ⟨true, 409, "dup", .vDict [], 500, "boom", .vDict []⟩
    [("PLANT", .lStr "1000")] (.lStr "1000") (by decide) (by decide) (by decide)
  refine ⟨?_, ?_⟩
  · have := h.1
    simpa using this
  · exact h.2.2 (by decide) (by decide)

/-! ## C10: the postal handler module can never be registered -/

/-- Auxiliary: a successful `alookup` result is a member of the list. -/
theorem alookup_mem {α : Type} (l : List (String × α)) (k : String) (v : α)
    (h : alookup l k = some v) : (k, v) ∈ l := by
  induction l with
  | nil => simp [alookup] at h
  | cons kv rest ih =>
    obtain ⟨k0, v0⟩ := kv
    unfold alookup at h
    by_cases he : (k0 == k) = true
    · rw [if_pos he] at h
      have hk : k0 = k := by simpa using he
      have hv : v0 = v := by injection h
      subst hk
      subst hv
      exact List.mem_cons_self _ _
    · rw [if_neg he] at h
      exact List.mem_cons_of_mem _ (ih h)

/-- Auxiliary: the registration loop never binds any intent to the
`sap_postal` module, because that module's import always fails. -/
theorem registryOf_never_sap_postal (cfg : List (String × IntentMeta)) (intent : String) :
    alookup (registryOf cfg) intent ≠ some "sap_postal" := by
  intro hcontra
  have hmem : (intent, "sap_postal") ∈ registryOf cfg := alookup_mem _ _ _ hcontra
  unfold registryOf at hmem
  rw [List.mem_filterMap] at hmem
  obtain ⟨⟨i, m⟩, _, hf⟩ := hmem
  cases hh : m.handler with
  | none => simp [hh] at hf
  | some h =>
    simp only [hh] at hf
    by_cases hok : handlerModuleImportOk h = true
    · rw [if_pos hok] at hf
      have hi : h = "sap_postal" := by
        have := congrArg (fun p => Option.map Prod.snd p) hf
        simpa using this
      subst hi
      exact absurd hok (by decide)
    · rw [if_neg hok] at hf
      simp at hf

/-- C10: `core/handlers/sap_postal.py` imports `get_telephone_address` and
`create_update_telephone_address` from `services.sap_postal_service`,
which defines neither, so the module import fails, no intent is ever
bound to the postal handler, and each postal intent sent to `/v3/route`
(under the spec-modelled intents configuration) is remapped to
GeneralChat and answered by the general-chat handler. -/
theorem c10_postal_handler_unregistered_falls_back :
    handlerModuleImportOk "sap_postal" = false ∧
    sap_postal_service_names.contains "get_telephone_address" = false ∧
    sap_postal_service_names.contains "create_update_telephone_address" = false ∧
    (∀ (cfg : List (String × IntentMeta)) (intent : String),
       alookup (registryOf cfg) intent ≠ some "sap_postal") ∧
    (∀ (d : Deps) (kvs : EntityMap),
       ((route_dynamic intentsConfig d
           { user_query := none, intent := some "GetPostalAddress", entities := kvs }).result
         = .ok (.chat d.chatReply)) ∧
       ((route_dynamic intentsConfig d
           { user_query := none, intent := some "CreatePostalAddress", entities := kvs }).result
         = .ok (.chat d.chatReply)) ∧
       ((route_dynamic intentsConfig d
           { user_query := none, intent := some "UpdatePostalAddress", entities := kvs }).result
         = .ok (.chat d.chatReply))) := by
  refine ⟨by decide, by decide, by decide, registryOf_never_sap_postal, ?_⟩
  intro d kvs
  exact ⟨rfl, rfl, rfl⟩

/-- C10 witness: an explicit CreatePostalAddress request through the v3
route is answered by the general-chat handler. -/
theorem c10_postal_handler_unregistered_falls_back_witness :
    (route_dynamic intentsConfig depsStub
        { user_query := none, intent := some "CreatePostalAddress", entities := [] }).result
      = .ok (.chat "OK") :=
  (c10_postal_handler_unregistered_falls_back.2.2.2.2 depsStub []).2.1

/-! ## C6: one-of validation exists only in the unused schema -/

/-- C6 counterexample: a `/v3/route` request supplying neither
`user_query` nor `intent` is not rejected — the endpoint accepts it and
answers with the general-chat reply. -/
theorem c6_counterexample_neither_accepted :
    (route_dynamic intentsConfig depsStub
        { user_query := none, intent := none, entities := [] }).result
      = .ok (.chat "OK") ∧
    httpBoundary (route_dynamic intentsConfig depsStub
        { user_query := none, intent := none, entities := [] }).result
      = .ok (.chat "OK") :=
  ⟨rfl, rfl⟩

/-- C6 (amended): the one-of validation lives only in
`schemas.DynamicRequest`, whose validator rejects a request in which both
`user_query` and `intent` are falsy; the `/v3/route` endpoint itself uses
`DynamicPayload`, performs no such validation, and dispatches such a
request as GeneralChat. -/
theorem c6_one_of_validation_in_schema_only (d : Deps) (r : DynamicRequest)
    (kvs : EntityMap)
    (hq : optStrTruthy r.user_query = false) (hi : optStrTruthy r.intent = false) :
    dynamicRequestValidate r
      = .error "Provide either \x27user_query\x27 or (\x27intent\x27 + \x27entities\x27)" ∧
    (route_dynamic intentsConfig d
        { user_query := r.user_query, intent := r.intent, entities := kvs }).result
      = .ok (.chat d.chatReply) := by
  constructor
  · simp [dynamicRequestValidate, hq, hi]
  · simp only [route_dynamic]
    rw [if_neg (by simp [hq])]
    rcases hit : r.intent with _ | s
    · rfl
    · have hs : s = "" := by
        have : (!(s == "")) = false := by simpa [optStrTruthy, hit] using hi
        simpa using this
      subst hs
      rfl

/-- C6 witness: the empty request is rejected by the schema validator but
accepted and answered as general chat by the route. -/
theorem c6_one_of_validation_in_schema_only_witness :
    dynamicRequestValidate { user_query := none, intent := none, entities := [] }
      = .error "Provide either \x27user_query\x27 or (\x27intent\x27 + \x27entities\x27)" ∧
    (route_dynamic intentsConfig depsStub
        { user_query := none, intent := none, entities := [] }).result
      = .ok (.chat depsStub.chatReply) :=
  c6_one_of_validation_in_schema_only depsStub
    { user_query := none, intent := none, entities := [] } [] (by decide) (by decide)

/-! ## C8: fence-wrapped responses parse like unfenced ones -/

/-- Appending preserves string data. -/
theorem string_data_append (a b : String) : (a ++ b).data = a.data ++ b.data := rfl

/-- The character list of a fence-wrapped string. -/
theorem fenceWrap_data (j : String) :
    (fenceWrap j).data = ['`', '`', '`', '\n'] ++ j.data ++ ['\n', '`', '`', '`'] := by
  show ("```\n".data ++ j.data) ++ "\n```".data = _
  simp

/-- `dropLeadingSpace` keeps a list headed by a non-space character. -/
theorem dls_cons_not_space (c : Char) (cs : List Char) (h : isPySpace c = false) :
    dropLeadingSpace (c :: cs) = c :: cs := by
  simp [dropLeadingSpace, h]

/-- `dropLeadingSpace` drops a leading newline. -/
theorem dls_cons_newline (cs : List Char) :
    dropLeadingSpace ('\n' :: cs) = dropLeadingSpace cs := by
  simp [dropLeadingSpace, isPySpace]

/-- `dropLeadingSpace` over an append. -/
theorem dls_append (xs ys : List Char) :
    dropLeadingSpace (xs ++ ys)
      = if dropLeadingSpace xs = [] then dropLeadingSpace ys
        else dropLeadingSpace xs ++ ys := by
  induction xs with
  | nil => simp [dropLeadingSpace]
  | cons c cs ih =>
    by_cases hc : isPySpace c
    · simp only [List.cons_append, dropLeadingSpace, hc, if_true]
      exact ih
    · simp [dropLeadingSpace, hc]

/-- Stripping a string that starts and ends with a non-space character is
the identity. -/
theorem pyStripList_of_ends (head tail : Char) (mid : List Char)
    (hh : isPySpace head = false) (ht : isPySpace tail = false) :
    pyStripList (head :: (mid ++ [tail])) = head :: (mid ++ [tail]) := by
  unfold pyStripList
  rw [dls_cons_not_space _ _ hh]
  have h2 : (head :: (mid ++ [tail])).reverse = tail :: (mid.reverse ++ [head]) := by
    simp
  rw [h2, dls_cons_not_space _ _ ht]
  simp

/-- Stripping ignores a leading newline. -/
theorem pyStripList_cons_newline (xs : List Char) :
    pyStripList ('\n' :: xs) = pyStripList xs := by
  unfold pyStripList
  rw [dls_cons_newline]

/-- Stripping ignores a trailing newline. -/
theorem pyStripList_append_newline (xs : List Char) :
    pyStripList (xs ++ ['\n']) = pyStripList xs := by
  unfold pyStripList
  rw [dls_append]
  by_cases h : dropLeadingSpace xs = []
  · simp [h, dropLeadingSpace, isPySpace]
  · rw [if_neg h]
    have : (dropLeadingSpace xs ++ ['\n']).reverse
        = '\n' :: (dropLeadingSpace xs).reverse := by simp
    rw [this, dls_cons_newline]

/-- Stripping a fence-wrapped string is the identity. -/
theorem pyStrip_fenceWrap (j : String) : pyStrip (fenceWrap j) = fenceWrap j := by
  unfold pyStrip
  have hd : (fenceWrap j).data
      = '`' :: ((['`', '`', '\n'] ++ j.data ++ ['\n', '`', '`']) ++ ['`']) := by
    rw [fenceWrap_data]
    simp
  rw [hd, pyStripList_of_ends '`' '`' _ (by decide) (by decide)]
  apply congrArg String.mk
  simp

/-- A list is a Boolean prefix of itself extended by anything. -/
theorem isPrefixList_self_append (xs t : List Char) :
    isPrefixList xs (xs ++ t) = true := by
  induction xs with
  | nil => simp [isPrefixList]
  | cons c cs ih => simp [isPrefixList, ih]

/-- A Boolean prefix of a list is one of any extension of it. -/
theorem isPrefixList_append_weaken (sep s t : List Char)
    (h : isPrefixList sep s = true) : isPrefixList sep (s ++ t) = true := by
  induction sep generalizing s with
  | nil => simp [isPrefixList]
  | cons a as ih =>
    cases s with
    | nil => simp [isPrefixList] at h
    | cons b bs =>
      simp only [isPrefixList, Bool.and_eq_true] at h
      simp only [List.cons_append, isPrefixList, Bool.and_eq_true]
      exact ⟨h.1, ih bs h.2⟩

/-- When the tested list is at least as long as the pattern, appending a
tail does not change the Boolean prefix test. -/
theorem isPrefixList_append_of_le (sep s t : List Char)
    (h : sep.length ≤ s.length) :
    isPrefixList sep (s ++ t) = isPrefixList sep s := by
  induction sep generalizing s with
  | nil => simp [isPrefixList]
  | cons a as ih =>
    cases s with
    | nil => simp at h
    | cons b bs =>
      simp only [List.length_cons, Nat.add_le_add_iff_right] at h
      simp only [List.cons_append, isPrefixList]
      have := ih bs h
      rw [show bs.append t = bs ++ t from rfl, this]

/-- A contained pattern stays contained when the list is extended on the
right. -/
theorem containsList_append_right (sep u w : List Char)
    (h : containsList sep u = true) : containsList sep (u ++ w) = true := by
  induction u with
  | nil =>
    cases sep with
    | nil =>
      cases w with
      | nil => simpa using h
      | cons c cs => simp [containsList, isPrefixList]
    | cons a as => simp [containsList, isPrefixList] at h
  | cons c cs ih =>
    simp only [containsList, Bool.or_eq_true] at h
    rcases h with h | h
    · simp only [List.cons_append, containsList, Bool.or_eq_true]
      exact Or.inl (isPrefixList_append_weaken _ _ _ h)
    · simp only [List.cons_append, containsList, Bool.or_eq_true]
      exact Or.inr (ih h)

/-- `dropLeadingSpace s` is a suffix of `s`. -/
theorem dls_is_suffix (s : List Char) :
    ∃ pre, s = pre ++ dropLeadingSpace s := by
  induction s with
  | nil => exact ⟨[], rfl⟩
  | cons c cs ih =>
    by_cases hc : isPySpace c
    · obtain ⟨pre, hpre⟩ := ih
      refine ⟨c :: pre, ?_⟩
      simp [dropLeadingSpace, hc]
      exact hpre
    · exact ⟨[], by simp [dropLeadingSpace, hc]⟩

/-- A pattern contained in `dropLeadingSpace s` is contained in `s`. -/
theorem containsList_dls (sep s : List Char)
    (h : containsList sep (dropLeadingSpace s) = true) :
    containsList sep s = true := by
  induction s with
  | nil => simpa [dropLeadingSpace] using h
  | cons c cs ih =>
    by_cases hc : isPySpace c
    · have hstep : dropLeadingSpace (c :: cs) = dropLeadingSpace cs := by
        simp [dropLeadingSpace, hc]
      rw [hstep] at h
      simp only [containsList, Bool.or_eq_true]
      exact Or.inr (ih h)
    · rw [dls_cons_not_space _ _ (by simpa using hc)] at h
      exact h

/-- A pattern contained in the stripped list is contained in the original
list. -/
theorem containsList_pyStripList (sep s : List Char)
    (h : containsList sep (pyStripList s) = true) :
    containsList sep s = true := by
  unfold pyStripList at h
  obtain ⟨pre, hpre⟩ := dls_is_suffix (dropLeadingSpace s).reverse
  have hdecomp : dropLeadingSpace s
      = (dropLeadingSpace (dropLeadingSpace s).reverse).reverse ++ pre.reverse := by
    have := congrArg List.reverse hpre
    simpa using this
  have h2 : containsList sep (dropLeadingSpace s) = true := by
    rw [hdecomp]
    exact containsList_append_right _ _ _ h
  exact containsList_dls _ _ h2

/-- Appending a newline cannot create a fence-marker occurrence. -/
theorem containsList_fence_append_newline (s : List Char)
    (h : containsList fenceMarker.data s = false) :
    containsList fenceMarker.data (s ++ ['\n']) = false := by
  induction s with
  | nil => decide
  | cons c cs ih =>
    simp only [containsList, Bool.or_eq_false_iff] at h
    have h2 := ih h.2
    simp only [List.cons_append, containsList, Bool.or_eq_false_iff]
    refine ⟨?_, h2⟩
    cases cs with
    | nil =>
      show isPrefixList ['`', '`', '`'] [c, '\n'] = false
      simp [isPrefixList]
    | cons c2 cs2 =>
      cases cs2 with
      | nil =>
        show isPrefixList ['`', '`', '`'] [c, c2, '\n'] = false
        simp [isPrefixList]
      | cons c3 cs3 =>
        have hlen : (fenceMarker.data).length ≤ (c :: c2 :: c3 :: cs3).length := by
          simp [fenceMarker]
        show isPrefixList fenceMarker.data ((c :: c2 :: c3 :: cs3) ++ ['\n']) = false
        rw [isPrefixList_append_of_le _ _ _ hlen]
        exact h.1

/-- A newline-terminated list with no fence occurrence admits no early
fence match when a fence is appended. -/
theorem noEarlyFenceMatch_of_not_contains (s : List Char)
    (h : containsList fenceMarker.data (s ++ ['\n']) = false) :
    noEarlyFenceMatch (s ++ ['\n']) = true := by
  induction s with
  | nil => decide
  | cons c cs ih =>
    simp only [List.cons_append, containsList, Bool.or_eq_false_iff] at h
    have h2 := ih h.2
    simp only [List.cons_append, noEarlyFenceMatch, Bool.and_eq_true, Bool.not_eq_true']
    refine ⟨?_, h2⟩
    cases cs with
    | nil =>
      show isPrefixList fenceMarker.data ([c, '\n'] ++ fenceMarker.data) = false
      show isPrefixList ['`', '`', '`'] [c, '\n', '`', '`', '`'] = false
      simp [isPrefixList]
    | cons c2 cs2 =>
      have hlen : (fenceMarker.data).length ≤ ((c :: c2 :: cs2) ++ ['\n']).length := by
        simp [fenceMarker]
      show isPrefixList fenceMarker.data (((c :: c2 :: cs2) ++ ['\n']) ++ fenceMarker.data)
        = false
      rw [isPrefixList_append_of_le _ _ _ hlen]
      exact h.1

/-- The split scan runs through a clean segment and stops at the trailing
fence, yielding the segment and an empty final part. -/
theorem splitOnFuel_through (s : List Char) :
    ∀ (acc : List Char) (fuel : Nat), s.length + 1 ≤ fuel →
      noEarlyFenceMatch s = true →
      splitOnFuel fenceMarker.data fuel (s ++ fenceMarker.data) acc
        = [acc.reverse ++ s, []] := by
  induction s with
  | nil =>
    intro acc fuel hf _
    match fuel, hf with
    | fuel + 1, _ =>
      show splitOnFuel fenceMarker.data (fuel + 1) ('`' :: ['`', '`']) acc = _
      rw [splitOnFuel]
      rw [if_pos (by decide)]
      show acc.reverse :: splitOnFuel fenceMarker.data fuel [] [] = _
      cases fuel <;> simp [splitOnFuel]
  | cons c cs ih =>
    intro acc fuel hf hnem
    simp only [noEarlyFenceMatch, Bool.and_eq_true, Bool.not_eq_true'] at hnem
    match fuel, hf with
    | fuel + 1, hf =>
      show splitOnFuel fenceMarker.data (fuel + 1) (c :: (cs ++ fenceMarker.data)) acc = _
      rw [splitOnFuel]
      rw [if_neg (by rw [show c :: (cs ++ fenceMarker.data)
            = (c :: cs) ++ fenceMarker.data from rfl, hnem.1]; simp)]
      have hf2 : cs.length + 1 ≤ fuel := by
        have := Nat.le_of_succ_le_succ hf
        simpa using this
      rw [ih (c :: acc) fuel hf2 hnem.2]
      simp

/-- Splitting a fence-wrapped body on the fence marker yields an empty
part, the newline-padded body, and an empty part. -/
theorem pySplitOn_fenceWrap (j : String)
    (hnem : noEarlyFenceMatch ('\n' :: j.data ++ ['\n']) = true) :
    pySplitOn (fenceWrap j) fenceMarker
      = ["", ⟨'\n' :: j.data ++ ['\n']⟩, ""] := by
  unfold pySplitOn pySplitList
  have hdata : (fenceWrap j).data
      = '`' :: ('`' :: '`' :: (('\n' :: j.data ++ ['\n']) ++ fenceMarker.data)) := by
    rw [fenceWrap_data]
    show _ = '`' :: ('`' :: '`' :: (('\n' :: j.data ++ ['\n']) ++ ['`', '`', '`']))
    simp
  rw [hdata]
  have hlen : ('`' :: ('`' :: '`' :: (('\n' :: j.data ++ ['\n']) ++ fenceMarker.data))).length
      = ('\n' :: j.data ++ ['\n']).length + 6 := by
    simp [fenceMarker]
  rw [hlen]
  rw [splitOnFuel]
  rw [if_pos (by
    show isPrefixList fenceMarker.data (fenceMarker.data
      ++ (('\n' :: j.data ++ ['\n']) ++ fenceMarker.data)) = true
    exact isPrefixList_self_append _ _)]
  have hdrop : List.drop (fenceMarker.data.length - 1)
      ('`' :: '`' :: (('\n' :: j.data ++ ['\n']) ++ fenceMarker.data))
      = ('\n' :: j.data ++ ['\n']) ++ fenceMarker.data := by
    show List.drop 2 _ = _
    simp
  rw [hdrop]
  rw [splitOnFuel_through _ _ _ (by omega) hnem]
  simp

/-- Fence stripping of a bare-fence-wrapped body yields exactly the
stripped body. -/
theorem pickJsonPayload_fenceWrap (j : String)
    (hb1 : j.data.contains '{' = true) (hb2 : j.data.contains '}' = true)
    (hnf : containsStr j fenceMarker = false) :
    pickJsonPayload (pyStrip (fenceWrap j)) = pickJsonPayload (pyStrip j) := by
  have hnfl : containsList fenceMarker.data j.data = false := hnf
  have hcnl : containsList fenceMarker.data (j.data ++ ['\n']) = false :=
    containsList_fence_append_newline _ hnfl
  have hnem : noEarlyFenceMatch ('\n' :: j.data ++ ['\n']) = true := by
    show noEarlyFenceMatch ('\n' :: (j.data ++ ['\n'])) = true
    simp only [noEarlyFenceMatch, Bool.and_eq_true, Bool.not_eq_true']
    constructor
    · show isPrefixList fenceMarker.data ('\n' :: ((j.data ++ ['\n']) ++ fenceMarker.data))
        = false
      show isPrefixList ['`', '`', '`'] ('\n' :: ((j.data ++ ['\n']) ++ fenceMarker.data))
        = false
      simp [isPrefixList]
    · exact noEarlyFenceMatch_of_not_contains _ hcnl
  have hw : containsStr (fenceWrap j) fenceMarker = true := by
    unfold containsStr
    rw [fenceWrap_data]
    show containsList fenceMarker.data
      ('`' :: '`' :: '`' :: '\n' :: (j.data ++ ['\n', '`', '`', '`'])) = true
    simp [containsList, isPrefixList]
  have hstripmid : pyStrip ⟨'\n' :: j.data ++ ['\n']⟩ = pyStrip j := by
    show String.mk (pyStripList ('\n' :: (j.data ++ ['\n']))) = String.mk (pyStripList j.data)
    rw [pyStripList_cons_newline, pyStripList_append_newline]
  have hnstrip : containsStr (pyStrip j) fenceMarker = false := by
    cases hcs : containsStr (pyStrip j) fenceMarker with
    | false => rfl
    | true =>
      have : containsList fenceMarker.data j.data = true :=
        containsList_pyStripList _ _ hcs
      rw [this] at hnfl
      cases hnfl
  rw [pyStrip_fenceWrap]
  unfold pickJsonPayload
  rw [if_pos hw, if_neg (by rw [hnstrip]; simp)]
  rw [pySplitOn_fenceWrap j hnem]
  have hmem1 : '{' ∈ j.data := by simpa using hb1
  have hmem2 : '}' ∈ j.data := by simpa using hb2
  have hpred0 : (("" : String).data.contains '{' && ("" : String).data.contains '}') = false := by
    decide
  have hpredm : ((⟨'\n' :: j.data ++ ['\n']⟩ : String).data.contains '{'
      && (⟨'\n' :: j.data ++ ['\n']⟩ : String).data.contains '}') = true := by
    show (('\n' :: (j.data ++ ['\n'])).contains '{' && ('\n' :: (j.data ++ ['\n'])).contains '}')
      = true
    simp [hmem1, hmem2]
  simp only [List.filter_cons, List.filter_nil, hpred0, hpredm, if_true, if_false,
    Bool.false_eq_true, Bool.true_eq_false]
  show pyStrip (maxByLen ⟨'\n' :: j.data ++ ['\n']⟩ []) = pyStrip j
  show pyStrip ⟨'\n' :: j.data ++ ['\n']⟩ = pyStrip j
  exact hstripmid

/-- C8 counterexample: `backtickJson` is a valid JSON object (it parses),
yet wrapping it in triple-backtick fences changes the extractor's parse
result — the fenced form fails to parse, because the fence split cuts
through the backticks inside the string value and no fragment keeps both
braces. -/
theorem c8_counterexample_backticks_inside_json :
    (jsonLoadsModel backtickJson).isSome = true ∧
    extract_telephone_details jsonLoadsModel (fenceWrap backtickJson)
      ≠ extract_telephone_details jsonLoadsModel backtickJson := by
  constructor
  · decide
  · decide

/-- C8 (amended): for every JSON object text containing a brace pair and
not itself containing the triple-backtick marker, the extractor parses the
response wrapped in bare triple-backtick fences to the same result as the
unfenced response: the fence stripping selects the sole fence-delimited
fragment containing braces and strips it back to the original text. -/
theorem c8_fenced_parse_equals_unfenced (known : List String) (jsonLoads : JsonLoads)
    (j : String)
    (hb1 : j.data.contains '{' = true) (hb2 : j.data.contains '}' = true)
    (hnf : containsStr j fenceMarker = false) :
    extractFromResponse known jsonLoads (fenceWrap j)
      = extractFromResponse known jsonLoads j := by
  unfold extractFromResponse
  rw [pickJsonPayload_fenceWrap j hb1 hb2 hnf]

/-- C8 witness: a concrete fenced JSON object parses identically to its
unfenced form. -/
theorem c8_fenced_parse_equals_unfenced_witness :
    extract_telephone_details jsonLoadsModel (fenceWrap "\x7b\"a\": \"b\"\x7d")
      = extract_telephone_details jsonLoadsModel "\x7b\"a\": \"b\"\x7d" :=
  c8_fenced_parse_equals_unfenced telephoneIntents jsonLoadsModel "\x7b\"a\": \"b\"\x7d"
    (by decide) (by decide) (by decide)
